import Mathlib

/-!
Verification of the drift OCI registry (CK-Technology/drift) against its
specification.  The Rust source is shallowly embedded: byte strings are
`List Nat`, the filesystem and S3 storage backends become pure state-passing
functions, and the `sha2::Sha256` library call is embedded as a full
executable SHA-256 over byte lists.
-/

set_option autoImplicit false
set_option maxRecDepth 1000000

namespace Drift

/-! ## SHA-256 (embedding of the `sha2` crate as used by the source) -/

/-- Truncate to a 32-bit word. -/
def w32 (n : Nat) : Nat := n % 4294967296

/-- Rotate a 32-bit word right by `k`. -/
def rotr (k n : Nat) : Nat := w32 ((n >>> k) + ((n % (2 ^ k)) * 2 ^ (32 - k)))

/-- Bitwise complement of a 32-bit word. -/
def bnot32 (n : Nat) : Nat := n ^^^ 4294967295

def bigSigma0 (x : Nat) : Nat := rotr 2 x ^^^ rotr 13 x ^^^ rotr 22 x
def bigSigma1 (x : Nat) : Nat := rotr 6 x ^^^ rotr 11 x ^^^ rotr 25 x
def smallSigma0 (x : Nat) : Nat := rotr 7 x ^^^ rotr 18 x ^^^ (x >>> 3)
def smallSigma1 (x : Nat) : Nat := rotr 17 x ^^^ rotr 19 x ^^^ (x >>> 10)
def ch (x y z : Nat) : Nat := (x &&& y) ^^^ (bnot32 x &&& z)
def maj (x y z : Nat) : Nat := (x &&& y) ^^^ (x &&& z) ^^^ (y &&& z)

/-- The 64 SHA-256 round constants. -/
def sha256K : List Nat :=
  [1116352408, 1899447441, 3049323471, 3921009573,
   961987163, 1508970993, 2453635748, 2870763221,
   3624381080, 310598401, 607225278, 1426881987,
   1925078388, 2162078206, 2614888103, 3248222580,
   3835390401, 4022224774, 264347078, 604807628,
   770255983, 1249150122, 1555081692, 1996064986,
   2554220882, 2821834349, 2952996808, 3210313671,
   3336571891, 3584528711, 113926993, 338241895,
   666307205, 773529912, 1294757372, 1396182291,
   1695183700, 1986661051, 2177026350, 2456956037,
   2730485921, 2820302411, 3259730800, 3345764771,
   3516065817, 3600352804, 4094571909, 275423344,
   430227734, 506948616, 659060556, 883997877,
   958139571, 1322822218, 1537002063, 1747873779,
   1955562222, 2024104815, 2227730452, 2361852424,
   2428436474, 2756734187, 3204031479, 3329325298]

/-- Big-endian byte serialisation of `n` into `k` bytes. -/
def beBytes (k n : Nat) : List Nat :=
  (List.range k).map (fun i => (n >>> (8 * (k - 1 - i))) % 256)

/-- SHA-256 message padding: `0x80`, zeros, then the 64-bit bit length. -/
def padMsg (m : List Nat) : List Nat :=
  let L := m.length
  let zeros := (64 + 55 - (L % 64)) % 64
  m ++ [128] ++ List.replicate zeros 0 ++ beBytes 8 (L * 8)

/-- The big-endian 32-bit word starting at offset `i` of the block. -/
def wordAt (block : List Nat) (i : Nat) : Nat :=
  block.getD i 0 * 16777216 + block.getD (i + 1) 0 * 65536 +
    block.getD (i + 2) 0 * 256 + block.getD (i + 3) 0

/-- The 16 input words of one 64-byte block. -/
def blockWords (block : List Nat) : List Nat :=
  (List.range 16).map (fun i => wordAt block (4 * i))

/-- Extend the 16 input words to the 64-entry message schedule. -/
def schedule (w16 : List Nat) : List Nat :=
  (List.range 48).foldl
    (fun w _ =>
      w ++ [w32 (smallSigma1 (w.getD (w.length - 2) 0) + w.getD (w.length - 7) 0 +
                 smallSigma0 (w.getD (w.length - 15) 0) + w.getD (w.length - 16) 0)])
    w16

/-- The eight 32-bit working variables of the compression function. -/
structure Hash8 where
  a : Nat
  b : Nat
  c : Nat
  d : Nat
  e : Nat
  f : Nat
  g : Nat
  h : Nat
deriving DecidableEq, Repr

def sha256Init : Hash8 :=
  ⟨1779033703, 3144134277, 1013904242, 2773480762,
   1359893119, 2600822924, 528734635, 1541459225⟩

/-- One round of the SHA-256 compression function. -/
def sha256Round (s : Hash8) (kw : Nat × Nat) : Hash8 :=
  let t1 := w32 (s.h + bigSigma1 s.e + ch s.e s.f s.g + kw.1 + kw.2)
  let t2 := w32 (bigSigma0 s.a + maj s.a s.b s.c)
  ⟨w32 (t1 + t2), s.a, s.b, s.c, w32 (s.d + t1), s.e, s.f, s.g⟩

/-- Compress one 64-byte block into the running hash state. -/
def compressBlock (st : Hash8) (block : List Nat) : Hash8 :=
  let ws := schedule (blockWords block)
  let r := (sha256K.zip ws).foldl sha256Round st
  ⟨w32 (st.a + r.a), w32 (st.b + r.b), w32 (st.c + r.c), w32 (st.d + r.d),
   w32 (st.e + r.e), w32 (st.f + r.f), w32 (st.g + r.g), w32 (st.h + r.h)⟩

/-- SHA-256 of a byte list, as eight 32-bit words. -/
def sha256Words (m : List Nat) : Hash8 :=
  let padded := padMsg m
  let nb := padded.length / 64
  ((List.range nb).map (fun i => (padded.drop (64 * i)).take 64)).foldl compressBlock sha256Init

/-- Lowercase hex digit. -/
def hexDigit (n : Nat) : Char :=
  if n < 10 then Char.ofNat (48 + n) else Char.ofNat (87 + n)

/-- Eight-hex-digit rendering of a 32-bit word (as `{:x}` does for full words). -/
def hex8 (n : Nat) : String :=
  String.mk ((List.range 8).map (fun i => hexDigit ((n >>> (4 * (7 - i))) % 16)))

/-- Lowercase hex SHA-256 digest of a byte list; embeds
`format!("{:x}", Sha256::digest(data))`. -/
def sha256Hex (m : List Nat) : String :=
  let s := sha256Words m
  String.join [hex8 s.a, hex8 s.b, hex8 s.c, hex8 s.d, hex8 s.e, hex8 s.f, hex8 s.g, hex8 s.h]

/-- Embeds `format!("sha256:{:x}", Sha256::digest(data))`, the digest-string
form used throughout the source. -/
def digestString (m : List Nat) : String := "sha256:" ++ sha256Hex m

/-! ## Key-value stores

Each storage area of the filesystem backend (`blobs/`, `manifests/`,
`uploads/`) is a set of files addressed by path; we model each as an
association list from path to byte content, with `setKV` embedding
`fs::write` (create or overwrite) and `eraseKV` embedding `fs::remove_file`.
-/

/-- Look up the content stored at key `k`. -/
def lookupKV (k : String) : List (String × List Nat) → Option (List Nat)
  | [] => none
  | (k₂, v) :: rest => if k₂ = k then some v else lookupKV k rest

/-- Remove the entry at key `k` (absent key is a no-op). -/
def eraseKV (k : String) : List (String × List Nat) → List (String × List Nat)
  | [] => []
  | (k₂, v) :: rest => if k₂ = k then eraseKV k rest else (k₂, v) :: eraseKV k rest

/-- Create or overwrite the entry at key `k`. -/
def setKV (k : String) (v : List Nat) (l : List (String × List Nat)) :
    List (String × List Nat) :=
  (k, v) :: eraseKV k l

/-! ## String ordering and search

Rust compares `String`s byte-lexicographically; on UTF-8 this coincides with
codepoint-lexicographic order, embedded here over `String.data`.
-/

/-- Rust `char`/byte order: numeric codepoint comparison. -/
def charLt (a b : Char) : Bool := a.toNat < b.toNat

/-- Strict lexicographic order on character lists. -/
def charListLt : List Char → List Char → Bool
  | [], [] => false
  | [], _ :: _ => true
  | _ :: _, [] => false
  | a :: as, b :: bs => charLt a b || (a = b && charListLt as bs)

/-- Reflexive lexicographic order on character lists. -/
def charListLe : List Char → List Char → Bool
  | [], _ => true
  | _ :: _, [] => false
  | a :: as, b :: bs => charLt a b || (a = b && charListLe as bs)

/-- Embeds Rust `a < b` on strings. -/
def strLt (a b : String) : Bool := charListLt a.data b.data

/-- Embeds Rust `a <= b` on strings. -/
def strLe (a b : String) : Bool := charListLe a.data b.data

/-- Insert into a sorted list (stable, keeps the new element first on ties). -/
def insertLe (x : String) : List String → List String
  | [] => [x]
  | y :: ys => if strLe x y then x :: y :: ys else y :: insertLe x ys

/-- Stable insertion sort; embeds Rust `Vec::<String>::sort`. -/
def sortLe : List String → List String
  | [] => []
  | x :: xs => insertLe x (sortLe xs)

/-- `pat` occurs as a contiguous sublist of `hay`. -/
def listInfix (pat : List Char) : List Char → Bool
  | [] => pat.isEmpty
  | c :: cs => pat.isPrefixOf (c :: cs) || listInfix pat cs

/-- Embeds Rust `str::contains(pat)` (substring containment). -/
def strContains (hay pat : String) : Bool := listInfix pat.data hay.data

/-- Embeds Rust `str::starts_with(pat)`. -/
def strStartsWith (hay pat : String) : Bool := pat.data.isPrefixOf hay.data

/-- Split a character list at the first occurrence of `c`; embeds
`str::split_once`. -/
def splitOnceChar (c : Char) : List Char → Option (List Char × List Char)
  | [] => none
  | x :: xs =>
    if x = c then some ([], xs)
    else match splitOnceChar c xs with
      | some (a, b) => some (x :: a, b)
      | none => none

/-- Embeds `str::strip_prefix`. -/
def stripPfx (pat hay : List Char) : Option (List Char) :=
  match pat, hay with
  | [], rest => some rest
  | _ :: _, [] => none
  | p :: ps, h :: hs => if p = h then stripPfx ps hs else none

/-- Split a character list at every occurrence of `c`; embeds
`str::split(c)` (an empty input yields one empty piece, as in Rust). -/
def splitChar (c : Char) : List Char → List (List Char)
  | [] => [[]]
  | x :: xs =>
    let r := splitChar c xs
    if x = c then [] :: r
    else
      match r with
      | [] => [[x]]
      | y :: ys => (x :: y) :: ys

/-- The `/`-separated segments of a path. -/
def pathSegs (path : String) : List String :=
  (splitChar '/' path.data).map String.mk

/-- Parse a decimal `u64`; embeds `str::parse::<u64>` on digit strings. -/
def parseNat : List Char → Option Nat
  | [] => none
  | cs =>
    if cs.all (fun c => 48 ≤ c.toNat && c.toNat ≤ 57) then
      some (cs.foldl (fun n c => n * 10 + (c.toNat - 48)) 0)
    else none

/-! ## Filesystem storage backend (`src/storage/filesystem.rs`)

`FilesystemStorage` keeps three directory trees under its root.  Files are
addressed by path; `manifest_path` joins `manifests/<repo>/<reference>`, so two
references collide exactly when their joined paths coincide, which the
path-string keys below reproduce.
-/

structure FsState where
  blobs : List (String × List Nat)
  manifests : List (String × List Nat)
  uploads : List (String × List Nat)
deriving DecidableEq, Repr

def emptyFs : FsState := ⟨[], [], []⟩

/-- `manifest_path` relative to `manifests/`. -/
def manifestKey (repo reference : String) : String := repo ++ "/" ++ reference

/-- Embeds `FilesystemStorage::put_blob`. -/
def fsPutBlob (s : FsState) (digest : String) (data : List Nat) : FsState :=
  { s with blobs := setKV digest data s.blobs }

/-- Embeds `FilesystemStorage::get_blob`. -/
def fsGetBlob (s : FsState) (digest : String) : Option (List Nat) :=
  lookupKV digest s.blobs

/-- Embeds `FilesystemStorage::put_manifest`. -/
def fsPutManifest (s : FsState) (repo reference : String) (data : List Nat) : FsState :=
  { s with manifests := setKV (manifestKey repo reference) data s.manifests }

/-- Embeds `FilesystemStorage::get_manifest`. -/
def fsGetManifest (s : FsState) (repo reference : String) : Option (List Nat) :=
  lookupKV (manifestKey repo reference) s.manifests

/-- `seek(SeekFrom::Start(start))` then `write_all(data)` on a file: bytes
before `start` are kept (zero-filled if the file is shorter), `data` overwrites
from `start`, and any older bytes beyond the written range survive. -/
def writeAt (file : List Nat) (start : Nat) (data : List Nat) : List Nat :=
  (file.take start ++ List.replicate (start - file.length) 0) ++ data ++
    file.drop (start + data.length)

/-- Embeds `FilesystemStorage::put_upload_chunk`: open/create `uploads/<uuid>`,
seek to `range.0`, write the chunk. -/
def fsPutUploadChunk (s : FsState) (uuid : String) (range : Nat × Nat)
    (data : List Nat) : FsState :=
  let file := (lookupKV uuid s.uploads).getD []
  { s with uploads := setKV uuid (writeAt file range.1 data) s.uploads }

/-- Embeds `FilesystemStorage::complete_upload`: `fs::rename` of the staging
file onto the blob path.  The digest argument is used only to name the target
file; no hash is computed or compared. -/
def fsCompleteUpload (s : FsState) (uuid digest : String) :
    Except Unit FsState :=
  match lookupKV uuid s.uploads with
  | none => .error ()
  | some data =>
    .ok { s with blobs := setKV digest data s.blobs, uploads := eraseKV uuid s.uploads }

/-- Embeds `FilesystemStorage::cancel_upload`. -/
def fsCancelUpload (s : FsState) (uuid : String) : FsState :=
  { s with uploads := eraseKV uuid s.uploads }

/-! ## Registry error envelope and HTTP mapping (`src/api/registry/mod.rs`) -/

structure RegError where
  code : String
  message : String
deriving DecidableEq, Repr

/-- Embeds the `match self.code.as_str()` of `impl IntoResponse for
RegistryError`: the HTTP status chosen for an error code. -/
def statusForCode (code : String) : Nat :=
  if code = "NAME_UNKNOWN" then 404
  else if code = "MANIFEST_UNKNOWN" then 404
  else if code = "BLOB_UNKNOWN" then 404
  else if code = "UNAUTHORIZED" then 401
  else if code = "DENIED" then 403
  else if code = "UNSUPPORTED" then 400
  else 500

/-! ## Manifest handlers (`src/api/registry/manifests.rs`) -/

/-- A successful manifest response: status, headers, body bytes (empty for
HEAD), and the resulting storage state for writes. -/
structure ManifestResponse where
  status : Nat
  contentType : String
  contentLength : Nat
  dockerContentDigest : String
  body : List Nat
deriving DecidableEq, Repr

/-- Embeds `get_manifest`: fetch by the reference as given; on a hit, the
`Docker-Content-Digest` header is recomputed from the returned bytes. -/
def getManifestHandler (s : FsState) (name reference : String) :
    Except RegError ManifestResponse :=
  match fsGetManifest s name reference with
  | some data =>
    .ok { status := 200
          contentType := "application/vnd.docker.distribution.manifest.v2+json"
          contentLength := data.length
          dockerContentDigest := digestString data
          body := data }
  | none => .error ⟨"MANIFEST_UNKNOWN", "Manifest " ++ name ++ ":" ++ reference ++ " not found"⟩

/-- Embeds `head_manifest`: identical headers, no body. -/
def headManifestHandler (s : FsState) (name reference : String) :
    Except RegError ManifestResponse :=
  match fsGetManifest s name reference with
  | some data =>
    .ok { status := 200
          contentType := "application/vnd.docker.distribution.manifest.v2+json"
          contentLength := data.length
          dockerContentDigest := digestString data
          body := [] }
  | none => .error ⟨"MANIFEST_UNKNOWN", "Manifest " ++ name ++ ":" ++ reference ++ " not found"⟩

/-- Embeds the `Content-Type` check of `put_manifest`: substring containment
of either family marker. -/
def validManifestContentType (contentType : String) : Bool :=
  strContains contentType "application/vnd.docker.distribution.manifest" ||
    strContains contentType "application/vnd.oci.image.manifest"

/-- Embeds `put_manifest`: validate the content type, hash the body for the
`Docker-Content-Digest` header, store under the reference as given. -/
def putManifestHandler (s : FsState) (name reference contentType : String)
    (body : List Nat) : Except RegError (Nat × List (String × String) × FsState) :=
  if validManifestContentType contentType then
    .ok (201,
         [("Location", "/v2/" ++ name ++ "/manifests/" ++ reference),
          ("Docker-Content-Digest", digestString body)],
         fsPutManifest s name reference body)
  else
    .error ⟨"UNSUPPORTED", "Unsupported manifest media type"⟩

/-! ## Upload handlers (`src/api/registry/uploads.rs`) -/

/-- Embeds `parse_content_range`: `"bytes start-end/total"` becomes
`(start, end + 1)`; anything unparseable becomes `(0, 0)`. -/
def parseContentRange (s : String) : Nat × Nat :=
  match stripPfx "bytes ".data s.data with
  | none => (0, 0)
  | some rest =>
    match splitOnceChar '/' rest with
    | none => (0, 0)
    | some (rangePart, _total) =>
      match splitOnceChar '-' rangePart with
      | none => (0, 0)
      | some (startPart, endPart) =>
        match parseNat startPart, parseNat endPart with
        | some a, some b => (a, b + 1)
        | _, _ => (0, 0)

/-- Embeds `upload_chunk` (PATCH): derive the range from the header (or
`(0, len)` without one), write the chunk at the range start, reply `202` with
`Range: 0-<range.1 - 1>`.  No comparison against any session offset occurs. -/
def uploadChunkHandler (s : FsState) (name uuid : String)
    (contentRange : Option String) (body : List Nat) :
    Except RegError (Nat × List (String × String) × FsState) :=
  let range := match contentRange with
    | some h => parseContentRange h
    | none => (0, body.length)
  let s₂ := fsPutUploadChunk s uuid range body
  .ok (202,
       [("Location", "/v2/" ++ name ++ "/blobs/uploads/" ++ uuid),
        ("Docker-Upload-UUID", uuid),
        ("Range", "0-" ++ toString (range.2 - 1))],
       s₂)

/-- Embeds `complete_upload` (PUT): require the `digest` query parameter,
write a trailing body (if any) as a chunk at range `(0, len)`, then ask the
backend to complete.  The accumulated bytes are never hashed or compared
against the digest parameter. -/
def completeUploadHandler (s : FsState) (name uuid : String)
    (digestParam : Option String) (body : List Nat) :
    Except RegError (Nat × List (String × String) × FsState) :=
  match digestParam with
  | none => .error ⟨"DIGEST_INVALID", "Digest parameter required"⟩
  | some digest =>
    let s₂ := if body.isEmpty then s else fsPutUploadChunk s uuid (0, body.length) body
    match fsCompleteUpload s₂ uuid digest with
    | .error _ => .error ⟨"UNKNOWN", "Failed to complete upload"⟩
    | .ok s₃ =>
      .ok (201,
           [("Location", "/v2/" ++ name ++ "/blobs/" ++ digest),
            ("Docker-Content-Digest", digest)],
           s₃)

/-! ## S3 storage backend (`src/storage/s3.rs`)

Objects in the bucket are modelled as an association list from key to bytes.
Only the upload path is needed here.
-/

structure S3State where
  objects : List (String × List Nat)
deriving DecidableEq, Repr

/-- `uploads/<uuid>/chunk-<start>-<end>`, the key written by
`S3Storage::put_upload_chunk`. -/
def s3ChunkKey (uuid : String) (range : Nat × Nat) : String :=
  "uploads/" ++ uuid ++ "/chunk-" ++ toString range.1 ++ "-" ++ toString range.2

/-- Embeds `S3Storage::put_upload_chunk`: one object per chunk. -/
def s3PutUploadChunk (s : S3State) (uuid : String) (range : Nat × Nat)
    (data : List Nat) : S3State :=
  ⟨setKV (s3ChunkKey uuid range) data s.objects⟩

/-- The chunk keys of a session in the order `complete_upload` visits them:
listed by key filter, then `chunks.sort()` — plain lexicographic string
sort. -/
def s3SortedChunkKeys (s : S3State) (uuid : String) : List String :=
  let keyPfx := "uploads/" ++ uuid ++ "/chunk-"
  sortLe ((s.objects.map Prod.fst).filter (fun k => strStartsWith k keyPfx))

/-- The bytes `S3Storage::complete_upload` assembles and commits as the blob:
the chunk objects concatenated in sorted-key order. -/
def s3AssembledBytes (s : S3State) (uuid : String) : List Nat :=
  ((s3SortedChunkKeys s uuid).map (fun k => (lookupKV k s.objects).getD [])).flatten

/-- Insert a chunk into a list sorted by numeric start offset. -/
def insertByStart (x : (Nat × Nat) × List Nat) :
    List ((Nat × Nat) × List Nat) → List ((Nat × Nat) × List Nat)
  | [] => [x]
  | y :: ys => if x.1.1 ≤ y.1.1 then x :: y :: ys else y :: insertByStart x ys

/-- Sort chunks by numeric start offset. -/
def sortByStart : List ((Nat × Nat) × List Nat) → List ((Nat × Nat) × List Nat)
  | [] => []
  | x :: xs => insertByStart x (sortByStart xs)

/-- Modelled from the spec: the blob the specification expects
`complete_upload` to commit — the session's chunks concatenated in the order
of their numeric starting byte offsets. -/
def specOffsetOrderedBytes (chunks : List ((Nat × Nat) × List Nat)) : List Nat :=
  ((sortByStart chunks).map Prod.snd).flatten

/-! ## Garbage collector (`src/garbage_collector.rs`)

`extract_blob_references` walks the manifest JSON at the fixed fields
`config.digest`, `layers[].digest`, `manifests[].digest` and
`foreignLayers[].digest`; a parsed manifest is modelled as exactly those
fields.  Timestamps are hours on an integer clock (`Duration::hours`).
-/

structure ManifestDoc where
  configDigest : Option String
  layers : List String
  manifestRefs : List String
  foreignLayers : List String
deriving Repr

/-- Embeds `extract_blob_references` (insertion order: config, layers,
manifests, foreignLayers). -/
def extractBlobReferences (m : ManifestDoc) : List String :=
  (match m.configDigest with | some d => [d] | none => []) ++
    m.layers ++ m.manifestRefs ++ m.foreignLayers

/-- Embeds `find_referenced_blobs`: union over every manifest of every
repository. -/
def findReferencedBlobs (repos : List (List ManifestDoc)) : List String :=
  (repos.map (fun ms => (ms.map extractBlobReferences).flatten)).flatten

/-- Embeds `find_orphaned_blobs`: keep a blob if it is unreferenced, its
metadata is readable, and `created_at < now - grace_period`. -/
def findOrphanedBlobs (allBlobs : List String) (referenced : List String)
    (createdAt : String → Option Int) (now graceHours : Int) : List String :=
  allBlobs.filter (fun d =>
    !referenced.contains d &&
      match createdAt d with
      | some c => decide (c < now - graceHours)
      | none => false)

/-- Embeds `delete_orphaned_blobs` restricted to what is actually deleted:
nothing in dry-run mode, otherwise the first `max_blobs_per_run` orphans. -/
def deleteOrphanedBlobs (orphaned : List String) (maxBlobsPerRun : Nat)
    (dryRun : Bool) : List String :=
  if dryRun then [] else orphaned.take maxBlobsPerRun

/-- Steps 1–4 of `run_garbage_collection`: the blob digests one run deletes. -/
def runGcDeletedBlobs (repos : List (List ManifestDoc)) (allBlobs : List String)
    (createdAt : String → Option Int) (now graceHours : Int)
    (maxBlobsPerRun : Nat) (dryRun : Bool) : List String :=
  deleteOrphanedBlobs
    (findOrphanedBlobs allBlobs (findReferencedBlobs repos) createdAt now graceHours)
    maxBlobsPerRun dryRun

/-! ## Catalog and tag-list pagination (`src/api/registry/mod.rs`) -/

/-- Embeds `Iterator::position`: index of the first element satisfying `p`. -/
def position (p : String → Bool) : List String → Option Nat
  | [] => none
  | x :: xs => if p x then some 0 else (position p xs).map (· + 1)

/-- The `last` seek of the pagination block: drop up to the first element
strictly greater than `last` when one exists, otherwise keep the whole
list. -/
def paginateSeek (items : List String) (lastParam : Option String) : List String :=
  match lastParam with
  | none => items
  | some l =>
    match position (fun r => strLt l r) items with
    | some pos => items.drop pos
    | none => items

/-- The pagination block shared verbatim by `list_repositories` and
`list_tags`: seek past `last`, then truncate to `n`. -/
def paginate (items : List String) (lastParam : Option String) (n : Nat) :
    List String :=
  (paginateSeek items lastParam).take n

/-- Embeds `list_repositories`: headers and the repository page.  `nParam` is
the parsed `n` query value (`None` when missing or unparseable). -/
def listRepositoriesHandler (repos : List String) (nParam : Option Nat)
    (lastParam : Option String) : List (String × String) × List String :=
  ([("content-type", "application/json")], paginate repos lastParam (nParam.getD 100))

/-- Embeds `list_tags`: same pagination over the tag list. -/
def listTagsHandler (name : String) (tags : List String) (nParam : Option Nat)
    (lastParam : Option String) : List (String × String) × String × List String :=
  ([("content-type", "application/json")], name, paginate tags lastParam (nParam.getD 100))

/-! ## Authorization scope derivation (`src/api/middleware.rs`) -/

inductive HMethod where
  | get
  | head
  | put
  | post
  | patch
  | delete
  | options
deriving DecidableEq, Repr

/-- The regex `^/v2/([^/]+)/(manifests|blobs)/` matches iff the path splits as
`"" :: "v2" :: repo :: kind :: _ :: _` with `repo` nonempty and `kind` one of
the two literals; the capture is the single segment `repo`. -/
def v2SingleSegMatch (path : String) : Option String :=
  match pathSegs path with
  | "" :: "v2" :: repo :: kind :: _ :: _ =>
    if repo ≠ "" ∧ (kind = "manifests" ∨ kind = "blobs") then some repo else none
  | _ => none

/-- Embeds `determine_required_scope`. -/
def determineRequiredScope (path : String) (m : HMethod) : String :=
  match v2SingleSegMatch path with
  | some repo =>
    match m with
    | .get | .head => "repository:" ++ repo ++ ":pull"
    | .put | .post | .patch => "repository:" ++ repo ++ ":push"
    | .delete => "repository:" ++ repo ++ ":delete"
    | _ => "repository:" ++ repo ++ ":pull"
  | none =>
    if strStartsWith path "/v2/" ∧ strContains path "/blobs/uploads/" then
      match (pathSegs path).drop 2 with
      | repo :: _ => "repository:" ++ repo ++ ":push"
      | [] => "repository:*:push"
    else if path = "/v2/_catalog" then "registry:catalog:*"
    else if strStartsWith path "/v1/" then
      match m with
      | .get => "bolt:read"
      | .post | .put => "bolt:write"
      | .delete => "bolt:delete"
      | _ => "bolt:read"
    else "registry:*"

/-! ## Helper lemmas -/

theorem lookupKV_setKV_self (k : String) (v : List Nat) (l : List (String × List Nat)) :
    lookupKV k (setKV k v l) = some v := by
  simp [setKV, lookupKV]

theorem lookupKV_eraseKV_ne (k k₂ : String) (l : List (String × List Nat)) (h : k₂ ≠ k) :
    lookupKV k₂ (eraseKV k l) = lookupKV k₂ l := by
  induction l with
  | nil => rfl
  | cons p rest ih =>
    obtain ⟨pk, pv⟩ := p
    by_cases hk : pk = k
    · subst hk
      simp [eraseKV, lookupKV, ih, Ne.symm h]
    · by_cases hk2 : pk = k₂
      · subst hk2
        simp [eraseKV, lookupKV, hk]
      · simp [eraseKV, lookupKV, hk, hk2, ih]

theorem lookupKV_setKV_ne (k k₂ : String) (v : List Nat) (l : List (String × List Nat))
    (h : k₂ ≠ k) : lookupKV k₂ (setKV k v l) = lookupKV k₂ l := by
  simp only [setKV, lookupKV, if_neg (Ne.symm h)]
  exact lookupKV_eraseKV_ne k k₂ l h

theorem manifestKey_inj_right (repo a b : String) (h : manifestKey repo a = manifestKey repo b) :
    a = b := by
  have h₂ : (repo ++ "/" ++ a).data = (repo ++ "/" ++ b).data := by
    simpa [manifestKey] using congrArg String.data h
  simp only [String.data_append] at h₂
  have h₃ : a.data = b.data := by
    simpa using h₂
  cases a
  cases b
  simp only at h₃
  exact congrArg String.mk h₃

/-! ## Claim C1 -/

/-- C1: the claim says a commit whose accumulated bytes do not hash to the
requested digest fails and creates no blob.  In the code neither
`complete_upload` handler nor `FilesystemStorage::complete_upload` ever hashes
the accumulated bytes: with staged bytes `"hi"` and an all-zero digest
parameter (which is not their SHA-256), the commit succeeds with `201` and
`get_blob` of that digest returns the bytes. -/
theorem c1_commit_succeeds_despite_digest_mismatch :
    digestString [104, 105] ≠
      "sha256:0000000000000000000000000000000000000000000000000000000000000000" ∧
    completeUploadHandler ⟨[], [], [("u1", [104, 105])]⟩ "r" "u1"
        (some "sha256:0000000000000000000000000000000000000000000000000000000000000000") [] =
      .ok (201,
        [("Location",
          "/v2/r/blobs/sha256:0000000000000000000000000000000000000000000000000000000000000000"),
         ("Docker-Content-Digest",
          "sha256:0000000000000000000000000000000000000000000000000000000000000000")],
        ⟨[("sha256:0000000000000000000000000000000000000000000000000000000000000000",
           [104, 105])], [], []⟩) ∧
    fsGetBlob
        ⟨[("sha256:0000000000000000000000000000000000000000000000000000000000000000",
           [104, 105])], [], []⟩
        "sha256:0000000000000000000000000000000000000000000000000000000000000000" =
      some [104, 105] := by
  refine ⟨by decide, rfl, rfl⟩

/-! ## Claim C2 -/

/-- C2 counterexample: the claim says a manifest put under a tag is also
retrievable under its digest.  `put_manifest` writes only the single file
`manifests/<repo>/<reference>`: after storing bytes `[1, 2, 3]` under tag
`v1`, `get_manifest` by the tag returns them but `get_manifest` by their
digest string returns `none`. -/
theorem c2_digest_reference_not_stored :
    fsGetManifest (fsPutManifest emptyFs "r" "v1" [1, 2, 3]) "r" "v1" = some [1, 2, 3] ∧
    fsGetManifest (fsPutManifest emptyFs "r" "v1" [1, 2, 3]) "r" (digestString [1, 2, 3]) =
      none ∧
    digestString [1, 2, 3] ≠ "v1" := by
  refine ⟨rfl, by decide, by decide⟩

/-- C2 amended: `put_manifest(repo, t, B)` makes `get_manifest(repo, t)`
return `B` and leaves every other reference of the repository unchanged; in
particular `get_manifest(repo, sha256(B))` returns `B` only if the digest key
was already bound to `B` or `t` is itself that digest string. -/
theorem c2_put_manifest_only_binds_given_reference (s : FsState) (repo t : String)
    (B : List Nat) :
    fsGetManifest (fsPutManifest s repo t B) repo t = some B ∧
    ∀ r₂, r₂ ≠ t →
      fsGetManifest (fsPutManifest s repo t B) repo r₂ = fsGetManifest s repo r₂ := by
  constructor
  · simp [fsGetManifest, fsPutManifest, lookupKV_setKV_self]
  · intro r₂ h
    have hk : manifestKey repo r₂ ≠ manifestKey repo t :=
      fun hEq => h (manifestKey_inj_right repo r₂ t hEq)
    simp [fsGetManifest, fsPutManifest, lookupKV_setKV_ne _ _ _ _ hk]

/-- C2 amended, witnessed at a concrete store: after putting `[1, 2, 3]` at
tag `v1` of repository `r`, the tag resolves to the bytes and the unrelated
reference `latest` is untouched. -/
theorem c2_put_manifest_only_binds_given_reference_witness :
    fsGetManifest (fsPutManifest emptyFs "r" "v1" [1, 2, 3]) "r" "v1" = some [1, 2, 3] ∧
    fsGetManifest (fsPutManifest emptyFs "r" "v1" [1, 2, 3]) "r" "latest" =
      fsGetManifest emptyFs "r" "latest" :=
  ⟨(c2_put_manifest_only_binds_given_reference emptyFs "r" "v1" [1, 2, 3]).1,
   (c2_put_manifest_only_binds_given_reference emptyFs "r" "v1" [1, 2, 3]).2 "latest"
     (by decide)⟩

/-! ## Claim C3 -/

/-- C3: one garbage-collection run never deletes a blob referenced by any
stored manifest (through `config.digest`, `layers[].digest`,
`manifests[].digest` or `foreignLayers[].digest`, in any repository), never
deletes a blob created within the grace period, and deletes at most
`max_blobs_per_run` blobs.  The model enumerates every stored manifest of
every repository, as `find_referenced_blobs` does for the single-segment
repository names the router produces. -/
theorem c3_gc_never_deletes_referenced_or_fresh
    (repos : List (List ManifestDoc)) (allBlobs : List String)
    (createdAt : String → Option Int) (now graceHours : Int)
    (maxBlobsPerRun : Nat) (dryRun : Bool) :
    (∀ d ∈ runGcDeletedBlobs repos allBlobs createdAt now graceHours maxBlobsPerRun dryRun,
      (¬ ∃ ms ∈ repos, ∃ m ∈ ms, d ∈ extractBlobReferences m) ∧
      ∀ c, createdAt d = some c → c < now - graceHours) ∧
    (runGcDeletedBlobs repos allBlobs createdAt now graceHours maxBlobsPerRun dryRun).length
      ≤ maxBlobsPerRun := by
  constructor
  · intro d hd
    have hd₂ : d ∈ findOrphanedBlobs allBlobs (findReferencedBlobs repos)
        createdAt now graceHours := by
      unfold runGcDeletedBlobs deleteOrphanedBlobs at hd
      cases hdr : dryRun
      · rw [hdr] at hd
        simp only [if_neg Bool.false_ne_true] at hd
        exact List.take_subset _ _ hd
      · rw [hdr] at hd
        simp at hd
    rw [findOrphanedBlobs, List.mem_filter] at hd₂
    obtain ⟨hmem, hcond⟩ := hd₂
    rw [Bool.and_eq_true] at hcond
    obtain ⟨href, hage⟩ := hcond
    constructor
    · rintro ⟨ms, hms, m, hm, hdm⟩
      have hin : d ∈ findReferencedBlobs repos := by
        simp only [findReferencedBlobs, List.mem_flatten, List.mem_map]
        exact ⟨(ms.map extractBlobReferences).flatten, ⟨ms, hms, rfl⟩,
          List.mem_flatten.mpr ⟨extractBlobReferences m, List.mem_map.mpr ⟨m, hm, rfl⟩, hdm⟩⟩
      rw [Bool.not_eq_true'] at href
      have hc : (findReferencedBlobs repos).contains d = true :=
        List.elem_eq_true_of_mem hin
      rw [href] at hc
      exact Bool.false_ne_true hc
    · intro c hc
      rw [hc] at hage
      exact of_decide_eq_true hage
  · unfold runGcDeletedBlobs deleteOrphanedBlobs
    cases dryRun
    · simp only [if_neg Bool.false_ne_true]
      exact List.length_take_le _ _
    · simp

/-- C3, witnessed on a concrete run: with one manifest referencing blobs
`sha256:a` (config) and `sha256:b` (layer), three stored blobs all created at
hour 0, the run at hour 100 with a 24-hour grace period deletes only
`sha256:c`; applying the theorem at that deleted digest yields both safety
conjuncts and the cap. -/
theorem c3_gc_never_deletes_referenced_or_fresh_witness :
    ((¬ ∃ ms ∈ [[(⟨some "sha256:a", ["sha256:b"], [], []⟩ : ManifestDoc)]],
        ∃ m ∈ ms, "sha256:c" ∈ extractBlobReferences m) ∧
      ∀ c : Int, (fun _ : String => (some 0 : Option Int)) "sha256:c" = some c →
        c < 100 - 24) ∧
    (runGcDeletedBlobs [[⟨some "sha256:a", ["sha256:b"], [], []⟩]]
      ["sha256:a", "sha256:b", "sha256:c"] (fun _ => some 0) 100 24 10 false).length ≤ 10 :=
  ⟨(c3_gc_never_deletes_referenced_or_fresh
      [[⟨some "sha256:a", ["sha256:b"], [], []⟩]] ["sha256:a", "sha256:b", "sha256:c"]
      (fun _ => some 0) 100 24 10 false).1 "sha256:c" (by decide),
   (c3_gc_never_deletes_referenced_or_fresh
      [[⟨some "sha256:a", ["sha256:b"], [], []⟩]] ["sha256:a", "sha256:b", "sha256:c"]
      (fun _ => some 0) 100 24 10 false).2⟩

/-! ## Claim C4 -/

/-- C4: the claim says `S3Storage::complete_upload` concatenates the accepted
chunks in numeric start-offset order.  The code sorts the chunk object keys
`uploads/<uuid>/chunk-<start>-<end>` as plain strings, so with chunks at
offsets 0, 5 and 10 the key `chunk-10-15` sorts before `chunk-5-10` and the
assembled blob interleaves the data out of offset order. -/
theorem c4_s3_assembles_chunks_in_key_order :
    s3AssembledBytes
        (s3PutUploadChunk
          (s3PutUploadChunk (s3PutUploadChunk ⟨[]⟩ "u1" (0, 5) [1, 1, 1, 1, 1])
            "u1" (5, 10) [2, 2, 2, 2, 2])
          "u1" (10, 15) [3, 3, 3, 3, 3]) "u1" =
      [1, 1, 1, 1, 1, 3, 3, 3, 3, 3, 2, 2, 2, 2, 2] ∧
    specOffsetOrderedBytes
        [((0, 5), [1, 1, 1, 1, 1]), ((5, 10), [2, 2, 2, 2, 2]), ((10, 15), [3, 3, 3, 3, 3])] =
      [1, 1, 1, 1, 1, 2, 2, 2, 2, 2, 3, 3, 3, 3, 3] ∧
    ([1, 1, 1, 1, 1, 3, 3, 3, 3, 3, 2, 2, 2, 2, 2] : List Nat) ≠
      [1, 1, 1, 1, 1, 2, 2, 2, 2, 2, 3, 3, 3, 3, 3] := by
  refine ⟨by decide, by decide, by decide⟩

/-! ## Claim C5 -/

/-- C5 counterexample: the claim says the index media type
`application/vnd.oci.image.index.v1+json` is accepted.  The code's check is
substring containment of the two markers
`application/vnd.docker.distribution.manifest` and
`application/vnd.oci.image.manifest`, neither of which occurs in the OCI
index type, so such a PUT fails with `UNSUPPORTED`. -/
theorem c5_oci_index_rejected :
    putManifestHandler emptyFs "r" "v1" "application/vnd.oci.image.index.v1+json" [1] =
      .error ⟨"UNSUPPORTED", "Unsupported manifest media type"⟩ := by
  rfl

/-- C5 amended: a manifest PUT succeeds iff its Content-Type contains the
substring `application/vnd.docker.distribution.manifest` or
`application/vnd.oci.image.manifest`; hence the Docker manifest-list and both
Docker/OCI manifest types are accepted, while the OCI image-index type is
rejected. -/
theorem c5_content_type_gate_is_substring_check :
    (∀ (s : FsState) (name reference contentType : String) (body : List Nat),
      (∃ out, putManifestHandler s name reference contentType body = .ok out) ↔
        validManifestContentType contentType = true) ∧
    validManifestContentType "application/vnd.docker.distribution.manifest.list.v2+json" =
      true ∧
    validManifestContentType "application/vnd.docker.distribution.manifest.v2+json" = true ∧
    validManifestContentType "application/vnd.oci.image.manifest.v1+json" = true ∧
    validManifestContentType "application/vnd.oci.image.index.v1+json" = false := by
  refine ⟨?_, by decide, by decide, by decide, by decide⟩
  intro s name reference contentType body
  constructor
  · rintro ⟨out, hout⟩
    by_contra hv
    rw [Bool.not_eq_true] at hv
    rw [putManifestHandler, hv] at hout
    simp at hout
  · intro hv
    exact ⟨(201,
      [("Location", "/v2/" ++ name ++ "/manifests/" ++ reference),
       ("Docker-Content-Digest", digestString body)],
      fsPutManifest s name reference body), by rw [putManifestHandler, hv]; simp⟩

/-- C5 amended, witnessed: a PUT with the Docker manifest-list media type on
the empty store succeeds. -/
theorem c5_content_type_gate_is_substring_check_witness :
    ∃ out, putManifestHandler emptyFs "r" "v1"
      "application/vnd.docker.distribution.manifest.list.v2+json" [1] = .ok out :=
  (c5_content_type_gate_is_substring_check.1 emptyFs "r" "v1"
    "application/vnd.docker.distribution.manifest.list.v2+json" [1]).mpr (by decide)

/-! ## Claim C6 -/

/-- C6: the claim says a PATCH whose Content-Range start differs from the
session's current offset fails with RANGE_INVALID and leaves the staged bytes
unchanged.  With two staged bytes (offset 2), a chunk claiming
`bytes 5-9/10` is accepted with `202`, written at offset 5 behind a zero-fill
gap, and the staged bytes change; no RANGE_INVALID path exists in
`upload_chunk`. -/
theorem c6_wrong_offset_chunk_accepted :
    uploadChunkHandler ⟨[], [], [("u1", [7, 7])]⟩ "r" "u1" (some "bytes 5-9/10")
        [1, 2, 3, 4, 5] =
      .ok (202,
        [("Location", "/v2/r/blobs/uploads/u1"), ("Docker-Upload-UUID", "u1"),
         ("Range", "0-9")],
        ⟨[], [], [("u1", [7, 7, 0, 0, 0, 1, 2, 3, 4, 5])]⟩) ∧
    ([7, 7, 0, 0, 0, 1, 2, 3, 4, 5] : List Nat) ≠ [7, 7] := by
  refine ⟨rfl, by decide⟩

/-! ## Claim C7 -/

theorem charLt_trans {a b c : Char} (h1 : charLt a b = true) (h2 : charLt b c = true) :
    charLt a c = true := by
  simp only [charLt, decide_eq_true_eq] at h1 h2 ⊢
  omega

theorem charListLt_trans :
    ∀ (a b c : List Char), charListLt a b = true → charListLt b c = true →
      charListLt a c = true := by
  intro a
  induction a with
  | nil =>
    intro b c h1 h2
    cases b with
    | nil => simp [charListLt] at h1
    | cons y ys =>
      cases c with
      | nil => simp [charListLt] at h2
      | cons z zs => simp [charListLt]
  | cons x xs ih =>
    intro b c h1 h2
    cases b with
    | nil => simp [charListLt] at h1
    | cons y ys =>
      cases c with
      | nil => simp [charListLt] at h2
      | cons z zs =>
        simp only [charListLt, Bool.or_eq_true, Bool.and_eq_true, decide_eq_true_eq]
          at h1 h2 ⊢
        rcases h1 with h1 | ⟨hxy, h1⟩
        · rcases h2 with h2 | ⟨hyz, h2⟩
          · exact Or.inl (charLt_trans h1 h2)
          · subst hyz
            exact Or.inl h1
        · subst hxy
          rcases h2 with h2 | ⟨hyz, h2⟩
          · exact Or.inl h2
          · subst hyz
            exact Or.inr ⟨rfl, ih ys zs h1 h2⟩

theorem strLt_trans {a b c : String} (h1 : strLt a b = true) (h2 : strLt b c = true) :
    strLt a c = true :=
  charListLt_trans a.data b.data c.data h1 h2

/-- If `position` finds the first element greater than `l` at index `i` in a
strictly sorted list, every element from index `i` on is greater than `l`. -/
theorem position_drop_all_gt (l : String) :
    ∀ (items : List String) (i : Nat),
      List.Pairwise (fun a b => strLt a b = true) items →
      position (fun r => strLt l r) items = some i →
      ∀ x ∈ items.drop i, strLt l x = true := by
  intro items
  induction items with
  | nil =>
    intro i _ h
    simp [position] at h
  | cons a as ih =>
    intro i hp hpos x hx
    rw [position] at hpos
    rw [List.pairwise_cons] at hp
    by_cases ha : strLt l a = true
    · rw [if_pos ha] at hpos
      injection hpos with hi
      subst hi
      rw [List.drop_zero] at hx
      rcases List.mem_cons.mp hx with hxa | hxas
      · subst hxa
        exact ha
      · exact strLt_trans ha (hp.1 x hxas)
    · rw [if_neg ha] at hpos
      cases hmap : position (fun r => strLt l r) as with
      | none =>
        rw [hmap] at hpos
        simp at hpos
      | some j =>
        rw [hmap] at hpos
        simp at hpos
        subst hpos
        rw [List.drop_succ_cons] at hx
        exact ih j hp.2 hmap x hx

/-- C7 counterexample: the claim says the page is empty when no element
exceeds `last`, and that truncated responses carry a `Link` header.  With
repositories `a, b` and `last = z`, no element is greater, yet the handler
returns the full list; with `n = 2` over `a, b, c` the result is truncated
and the headers still contain no `Link`. -/
theorem c7_pagination_counterexample :
    listRepositoriesHandler ["a", "b"] none (some "z") =
      ([("content-type", "application/json")], ["a", "b"]) ∧
    (["a", "b"] : List String) ≠ [] ∧
    listRepositoriesHandler ["a", "b", "c"] (some 2) none =
      ([("content-type", "application/json")], ["a", "b"]) ∧
    ((listRepositoriesHandler ["a", "b", "c"] (some 2) none).1.map Prod.fst).contains
        "Link" = false := by
  refine ⟨rfl, by decide, rfl, rfl⟩

/-- C7 amended: both listing endpoints return at most `n` results
(default 100) drawn from the stored list; when `last` is supplied and some
element is strictly greater, the page starts at the first such element (on a
sorted list, every returned element is then greater than `last`); when no
element is greater, the seek is skipped and the page is the unfiltered list
truncated to `n`; and no response ever carries a `Link` header. -/
theorem c7_pagination_behavior :
    (∀ (items : List String) (lp : Option String) (n : Nat),
      (paginate items lp n).length ≤ n) ∧
    (∀ (items : List String) (lp : Option String) (n : Nat),
      ∀ x ∈ paginate items lp n, x ∈ items) ∧
    (∀ (items : List String) (l : String) (n : Nat),
      position (fun r => strLt l r) items = none →
        paginate items (some l) n = items.take n) ∧
    (∀ (items : List String) (l : String) (n i : Nat),
      position (fun r => strLt l r) items = some i →
        paginate items (some l) n = (items.drop i).take n) ∧
    (∀ (items : List String) (l : String) (n : Nat),
      List.Pairwise (fun a b => strLt a b = true) items →
      ∀ i, position (fun r => strLt l r) items = some i →
        ∀ x ∈ paginate items (some l) n, strLt l x = true) ∧
    (∀ (repos : List String) (nP : Option Nat) (lP : Option String),
      ((listRepositoriesHandler repos nP lP).1.map Prod.fst).contains "Link" = false) ∧
    (∀ (name : String) (tags : List String) (nP : Option Nat) (lP : Option String),
      ((listTagsHandler name tags nP lP).1.map Prod.fst).contains "Link" = false) := by
  refine ⟨?_, ?_, ?_, ?_, ?_, ?_, ?_⟩
  · intro items lp n
    exact List.length_take_le _ _
  · intro items lp n x hx
    have hx₂ : x ∈ paginateSeek items lp := List.take_subset _ _ hx
    cases lp with
    | none => exact hx₂
    | some l =>
      rw [paginateSeek] at hx₂
      cases hpos : position (fun r => strLt l r) items with
      | none =>
        rw [hpos] at hx₂
        exact hx₂
      | some j =>
        rw [hpos] at hx₂
        exact List.drop_subset _ _ hx₂
  · intro items l n hpos
    rw [paginate, paginateSeek, hpos]
  · intro items l n i hpos
    rw [paginate, paginateSeek, hpos]
  · intro items l n hp i hpos x hx
    rw [paginate, paginateSeek, hpos] at hx
    exact position_drop_all_gt l items i hp hpos x (List.take_subset _ _ hx)
  · intro repos nP lP
    rfl
  · intro name tags nP lP
    rfl

/-- C7 amended, witnessed on the spec's pagination scenario: over
repositories `a..e`, page `n = 2` after `last = b` is `c, d`, its elements
are among the stored repositories and greater than `b`, and the headers of
the corresponding response contain no `Link`. -/
theorem c7_pagination_behavior_witness :
    (paginate ["a", "b", "c", "d", "e"] (some "b") 2).length ≤ 2 ∧
    paginate ["a", "b", "c", "d", "e"] (some "b") 2 = (["a", "b", "c", "d", "e"].drop 2).take 2 ∧
    strLt "b" "c" = true ∧
    (("c" : String) ∈ (["a", "b", "c", "d", "e"] : List String)) ∧
    ((listRepositoriesHandler ["a", "b", "c", "d", "e"] (some 2) (some "b")).1.map
        Prod.fst).contains "Link" = false :=
  ⟨c7_pagination_behavior.1 ["a", "b", "c", "d", "e"] (some "b") 2,
   c7_pagination_behavior.2.2.2.1 ["a", "b", "c", "d", "e"] "b" 2 2 (by decide),
   c7_pagination_behavior.2.2.2.2.1 ["a", "b", "c", "d", "e"] "b" 2 (by decide) 2
     (by decide) "c" (by decide),
   c7_pagination_behavior.2.1 ["a", "b", "c", "d", "e"] (some "b") 2 "c" (by decide),
   c7_pagination_behavior.2.2.2.2.2.1 ["a", "b", "c", "d", "e"] (some 2) (some "b")⟩

/-! ## Claim C8 -/

/-- C8 counterexample: the claim says every method on
`/v2/<repo>/blobs/uploads/*` requires `repository:<repo>:push`.  For a
single-segment repository the uploads path already matches the
`manifests|blobs` regex, so the method table applies and a GET (upload
status) derives the pull scope instead. -/
theorem c8_upload_get_requires_pull_not_push :
    determineRequiredScope "/v2/r/blobs/uploads/u1" .get = "repository:r:pull" ∧
    ("repository:r:pull" : String) ≠ "repository:r:push" := by
  refine ⟨rfl, by decide⟩

/-- C8 amended: for paths `/v2/<repo>/manifests/...` and `/v2/<repo>/blobs/...`
with a single-segment `<repo>` — including `/v2/<repo>/blobs/uploads/...` —
the scope is `repository:<repo>:pull` for GET/HEAD, `repository:<repo>:push`
for PUT/POST/PATCH and `repository:<repo>:delete` for DELETE;
`/v2/_catalog` requires `registry:catalog:*`; a slash-separated repository
name fails the single-segment match, falling back to `registry:*` for
manifest/blob paths and to `repository:<first-segment>:push` for upload
paths. -/
theorem c8_scope_derivation_table :
    determineRequiredScope "/v2/myrepo/manifests/latest" .get = "repository:myrepo:pull" ∧
    determineRequiredScope "/v2/myrepo/manifests/latest" .head = "repository:myrepo:pull" ∧
    determineRequiredScope "/v2/myrepo/manifests/latest" .put = "repository:myrepo:push" ∧
    determineRequiredScope "/v2/myrepo/manifests/latest" .delete =
      "repository:myrepo:delete" ∧
    determineRequiredScope "/v2/myrepo/blobs/sha256:abc" .get = "repository:myrepo:pull" ∧
    determineRequiredScope "/v2/myrepo/blobs/sha256:abc" .head = "repository:myrepo:pull" ∧
    determineRequiredScope "/v2/myrepo/blobs/sha256:abc" .delete =
      "repository:myrepo:delete" ∧
    determineRequiredScope "/v2/myrepo/blobs/uploads/u1" .put = "repository:myrepo:push" ∧
    determineRequiredScope "/v2/myrepo/blobs/uploads/u1" .patch = "repository:myrepo:push" ∧
    determineRequiredScope "/v2/myrepo/blobs/uploads/u1" .post = "repository:myrepo:push" ∧
    determineRequiredScope "/v2/myrepo/blobs/uploads/u1" .get = "repository:myrepo:pull" ∧
    determineRequiredScope "/v2/myrepo/blobs/uploads/u1" .delete =
      "repository:myrepo:delete" ∧
    determineRequiredScope "/v2/_catalog" .get = "registry:catalog:*" ∧
    determineRequiredScope "/v2/lib/app/manifests/v1" .get = "registry:*" ∧
    determineRequiredScope "/v2/lib/app/blobs/uploads/u1" .get = "repository:lib:push" := by
  refine ⟨rfl, rfl, rfl, rfl, rfl, rfl, rfl, rfl, rfl, rfl, rfl, rfl, rfl, rfl, rfl⟩

/-! ## Claim C9 -/

/-- C9 counterexample: the claim says RANGE_INVALID maps to HTTP 416.  The
`IntoResponse` match lists only the three `*_UNKNOWN` codes, UNAUTHORIZED,
DENIED and UNSUPPORTED; everything else — RANGE_INVALID included — falls to
the default arm and becomes 500. -/
theorem c9_range_invalid_maps_to_500 :
    statusForCode "RANGE_INVALID" = 500 ∧ (500 : Nat) ≠ 416 := by
  refine ⟨rfl, by decide⟩

/-- C9 amended: the error-code → status mapping implemented by the code:
NAME_UNKNOWN, MANIFEST_UNKNOWN and BLOB_UNKNOWN map to 404, UNAUTHORIZED to
401, DENIED to 403, UNSUPPORTED to 400, and every other code — including
BLOB_UPLOAD_UNKNOWN, the `*_INVALID` codes, SIZE_INVALID, RANGE_INVALID and
UNKNOWN — to 500. -/
theorem c9_status_mapping_table :
    statusForCode "BLOB_UNKNOWN" = 404 ∧
    statusForCode "MANIFEST_UNKNOWN" = 404 ∧
    statusForCode "NAME_UNKNOWN" = 404 ∧
    statusForCode "UNAUTHORIZED" = 401 ∧
    statusForCode "DENIED" = 403 ∧
    statusForCode "UNSUPPORTED" = 400 ∧
    statusForCode "BLOB_UPLOAD_UNKNOWN" = 500 ∧
    statusForCode "BLOB_UPLOAD_INVALID" = 500 ∧
    statusForCode "DIGEST_INVALID" = 500 ∧
    statusForCode "MANIFEST_INVALID" = 500 ∧
    statusForCode "MANIFEST_UNVERIFIED" = 500 ∧
    statusForCode "NAME_INVALID" = 500 ∧
    statusForCode "TAG_INVALID" = 500 ∧
    statusForCode "SIZE_INVALID" = 500 ∧
    statusForCode "RANGE_INVALID" = 500 ∧
    statusForCode "UNKNOWN" = 500 := by
  refine ⟨rfl, rfl, rfl, rfl, rfl, rfl, rfl, rfl, rfl, rfl, rfl, rfl, rfl, rfl, rfl, rfl⟩

/-! ## Claim C10 -/

/-- C10: on every successful manifest GET the `Docker-Content-Digest` header
is the SHA-256 of the body actually returned, and on every successful HEAD it
is the SHA-256 of the stored bytes (whose length is also the reported
`Content-Length`): both handlers recompute the digest from the stored data on
every read, regardless of whether the request's reference was a tag or a
digest. -/
theorem c10_digest_header_recomputed_from_bytes :
    (∀ (s : FsState) (name reference : String) (resp : ManifestResponse),
      getManifestHandler s name reference = .ok resp →
        resp.dockerContentDigest = digestString resp.body) ∧
    (∀ (s : FsState) (name reference : String) (resp : ManifestResponse),
      headManifestHandler s name reference = .ok resp →
        ∃ data, fsGetManifest s name reference = some data ∧
          resp.dockerContentDigest = digestString data ∧
          resp.contentLength = data.length) := by
  constructor
  · intro s name reference resp h
    rw [getManifestHandler] at h
    cases hg : fsGetManifest s name reference with
    | none =>
      rw [hg] at h
      simp at h
    | some data =>
      rw [hg] at h
      injection h with h₂
      subst h₂
      rfl
  · intro s name reference resp h
    rw [headManifestHandler] at h
    cases hg : fsGetManifest s name reference with
    | none =>
      rw [hg] at h
      simp at h
    | some data =>
      rw [hg] at h
      injection h with h₂
      subst h₂
      exact ⟨data, rfl, rfl, rfl⟩

/-- C10, witnessed on a one-manifest store: after putting the byte `[97]`
under tag `v1`, the GET response's digest header equals the SHA-256 digest
string of its own body, and the HEAD response reports the stored bytes'
digest and length. -/
theorem c10_digest_header_recomputed_from_bytes_witness :
    (⟨200, "application/vnd.docker.distribution.manifest.v2+json", 1,
        digestString [97], [97]⟩ : ManifestResponse).dockerContentDigest =
      digestString
        (⟨200, "application/vnd.docker.distribution.manifest.v2+json", 1,
          digestString [97], [97]⟩ : ManifestResponse).body ∧
    ∃ data,
      fsGetManifest (fsPutManifest emptyFs "r" "v1" [97]) "r" "v1" = some data ∧
      (⟨200, "application/vnd.docker.distribution.manifest.v2+json", 1,
          digestString [97], []⟩ : ManifestResponse).dockerContentDigest =
        digestString data ∧
      (⟨200, "application/vnd.docker.distribution.manifest.v2+json", 1,
          digestString [97], []⟩ : ManifestResponse).contentLength = data.length :=
  ⟨c10_digest_header_recomputed_from_bytes.1 (fsPutManifest emptyFs "r" "v1" [97]) "r" "v1"
     _ rfl,
   c10_digest_header_recomputed_from_bytes.2 (fsPutManifest emptyFs "r" "v1" [97]) "r" "v1"
     _ rfl⟩

end Drift

